import Mathlib

/-!
Verification of the flask-task-manager backend against its specification.

The Python sources under `app/` are shallowly embedded here:
  * `app/db/entity.py`      → the entity structures and the two status enums;
  * `app/db/repository.py`  → pure functions over an explicit `DBState`;
  * `app/service/*.py`      → service functions threading `DBState` and
                              returning `Except` for paths that `raise`;
  * `app/routes/*.py`       → handler functions producing an `HttpResponse`.

Conventions of the embedding:
  * SQL `date`/`datetime` values are modelled as `Nat` (their ordering is all
    the code uses); `datetime.now(CURRENT_TIMEZONE)` becomes an explicit `now`
    argument.
  * An entity's autoincrement primary key is `Option Nat`: `none` before the
    row is inserted (Python `None`), `some i` once the database assigned `i`.
    Each table's autoincrement sequence lives in `DBState` as `next_*_id`.
  * `session.add(e); session.commit()` (`CrudRepositoryORM.save_or_update`)
    inserts a fresh entity (`id = none`) at the end of the table and assigns
    it the next id, and otherwise updates the row with the same primary key
    in place.
  * The code never enables SQLite foreign-key enforcement (no pragma is set
    anywhere), so deleting a task performs no `ON DELETE SET NULL` action on
    `task_history.task_id`; a plain row delete is the faithful model.
-/

/-! ### Status enums (`app/db/entity.py`) -/

/-- `ProjectStatusEnum` from `app/db/entity.py`. -/
inductive ProjectStatusEnum where
  | PLANNED
  | IN_PROGRESS
  | COMPLETED
  | ON_HOLD
  | CANCELLED
  | ARCHIVED
deriving DecidableEq

/-- `TaskStatusEnum` from `app/db/entity.py`. -/
inductive TaskStatusEnum where
  | TO_DO
  | IN_PROGRESS
  | WAITING_FOR_APPROVAL
  | BLOCKED
  | COMPLETED
  | CANCELLED
deriving DecidableEq

/-- The Python enum member name (`member.name`), used by `to_dict` and in the
status-change history template. -/
def TaskStatusEnum.name : TaskStatusEnum → String
  | .TO_DO => "TO_DO"
  | .IN_PROGRESS => "IN_PROGRESS"
  | .WAITING_FOR_APPROVAL => "WAITING_FOR_APPROVAL"
  | .BLOCKED => "BLOCKED"
  | .COMPLETED => "COMPLETED"
  | .CANCELLED => "CANCELLED"

/-- The Python enum member value (`member.value`). -/
def TaskStatusEnum.value : TaskStatusEnum → String
  | .TO_DO => "To Do"
  | .IN_PROGRESS => "In Progress"
  | .WAITING_FOR_APPROVAL => "Waiting for Approval"
  | .BLOCKED => "Blocked"
  | .COMPLETED => "Completed"
  | .CANCELLED => "Cancelled"

/-- Lookup by member name, `TaskStatusEnum[s]`: `some` on a member name,
`none` where Python raises `KeyError`. -/
def TaskStatusEnum.fromName : String → Option TaskStatusEnum
  | "TO_DO" => some .TO_DO
  | "IN_PROGRESS" => some .IN_PROGRESS
  | "WAITING_FOR_APPROVAL" => some .WAITING_FOR_APPROVAL
  | "BLOCKED" => some .BLOCKED
  | "COMPLETED" => some .COMPLETED
  | "CANCELLED" => some .CANCELLED
  | _ => none

/-- The Python enum member name for project statuses. -/
def ProjectStatusEnum.name : ProjectStatusEnum → String
  | .PLANNED => "PLANNED"
  | .IN_PROGRESS => "IN_PROGRESS"
  | .COMPLETED => "COMPLETED"
  | .ON_HOLD => "ON_HOLD"
  | .CANCELLED => "CANCELLED"
  | .ARCHIVED => "ARCHIVED"

/-- Lookup by member name, `ProjectStatusEnum[s]` (case-sensitive): `some` on
a member name, `none` where Python raises `KeyError`. -/
def ProjectStatusEnum.fromName : String → Option ProjectStatusEnum
  | "PLANNED" => some .PLANNED
  | "IN_PROGRESS" => some .IN_PROGRESS
  | "COMPLETED" => some .COMPLETED
  | "ON_HOLD" => some .ON_HOLD
  | "CANCELLED" => some .CANCELLED
  | "ARCHIVED" => some .ARCHIVED
  | _ => none

/-- Python's `str.upper()` restricted to ASCII, which is all the status
strings use. Applied by the task resources before the enum lookup. -/
def pyUpper (s : String) : String :=
  String.mk (s.data.map Char.toUpper)

/-! ### Entities (`app/db/entity.py`) -/

/-- `UserEntity` (table `users`). -/
structure UserEntity where
  id : Option Nat
  name : String
  surname : String
  email : String
deriving DecidableEq

/-- `ProjectEntity` (table `projects`). `users` is a scalar many-to-one
relationship along `user_id` and is not a stored column. -/
structure ProjectEntity where
  id : Option Nat
  name : String
  description : String
  start_date : Nat
  end_date : Option Nat
  status : ProjectStatusEnum
  user_id : Nat
deriving DecidableEq

/-- `TaskEntity` (table `tasks`). -/
structure TaskEntity where
  id : Option Nat
  title : String
  description : Option String
  start_date : Option Nat
  end_date : Option Nat
  status : TaskStatusEnum
  project_id : Nat
deriving DecidableEq

/-- `CommentEntity` (table `comments`). -/
structure CommentEntity where
  id : Option Nat
  content : String
  creation_date : Nat
  task_id : Nat
deriving DecidableEq

/-- `TaskHistoryEntity` (table `task_history`); `task_id` is nullable. -/
structure TaskHistoryEntity where
  id : Option Nat
  change_description : String
  change_date : Nat
  task_id : Option Nat
deriving DecidableEq

/-! ### DTOs (`app/service/dto.py`) -/

/-- `CreateUserDto`. -/
structure CreateUserDto where
  name : String
  surname : String
  email : String
deriving DecidableEq

/-- `CreateProjectDto`. -/
structure CreateProjectDto where
  name : String
  description : String
  start_date : Nat
  end_date : Option Nat
  status : ProjectStatusEnum
  user_id : Nat
deriving DecidableEq

/-- `CreateTaskDto`. -/
structure CreateTaskDto where
  title : String
  description : String
  start_date : Nat
  end_date : Option Nat
  status : TaskStatusEnum
  project_id : Nat
deriving DecidableEq

/-! ### Database state

One record holding the five tables and each table's autoincrement sequence.
Rows appear in insertion order, which is also the order `find_all`
(`SELECT` without `ORDER BY`) returns. -/

/-- The relational store: the five tables of `app/db/entity.py` plus the
per-table autoincrement counters. -/
structure DBState where
  users : List UserEntity
  projects : List ProjectEntity
  tasks : List TaskEntity
  comments : List CommentEntity
  task_history : List TaskHistoryEntity
  next_user_id : Nat
  next_project_id : Nat
  next_task_id : Nat
  next_comment_id : Nat
  next_history_id : Nat
deriving DecidableEq

/-! ### Repositories (`app/db/repository.py`)

Each repository specializes the generic `CrudRepositoryORM` methods to its
table, exactly as the Python subclasses do. -/

/-- `CrudRepositoryORM.find_by_id` for `TaskRepository`: query by primary
key, `none` if absent. -/
def TaskRepository.find_by_id (s : DBState) (entity_id : Nat) : Option TaskEntity :=
  s.tasks.find? (fun u => u.id == some entity_id)

/-- `CrudRepositoryORM.find_all` for `TaskRepository`. -/
def TaskRepository.find_all (s : DBState) : List TaskEntity :=
  s.tasks

/-- `CrudRepositoryORM.save_or_update` for `TaskRepository`:
`session.add(entity); session.commit()`. A fresh entity (`id = none`) is
inserted and given the next autoincrement id; an entity with a primary key
updates the row with that key in place. -/
def TaskRepository.save_or_update (s : DBState) (t : TaskEntity) : DBState × TaskEntity :=
  match t.id with
  | none =>
      let t' := { t with id := some s.next_task_id }
      ({ s with tasks := s.tasks ++ [t'], next_task_id := s.next_task_id + 1 }, t')
  | some i =>
      ({ s with tasks := s.tasks.map (fun u => if u.id == some i then t else u) }, t)

/-- `CrudRepositoryORM.delete_by_id` for `TaskRepository`: find by primary
key and delete the row; a no-op when the id is absent. -/
def TaskRepository.delete_by_id (s : DBState) (entity_id : Nat) : DBState :=
  match TaskRepository.find_by_id s entity_id with
  | some _ => { s with tasks := s.tasks.filter (fun u => !(u.id == some entity_id)) }
  | none => s

/-- `CrudRepositoryORM.find_by_id` for `ProjectRepository`. -/
def ProjectRepository.find_by_id (s : DBState) (entity_id : Nat) : Option ProjectEntity :=
  s.projects.find? (fun p => p.id == some entity_id)

/-- `CrudRepositoryORM.find_all` for `ProjectRepository`. -/
def ProjectRepository.find_all (s : DBState) : List ProjectEntity :=
  s.projects

/-- `CrudRepositoryORM.save_or_update` for `ProjectRepository`. -/
def ProjectRepository.save_or_update (s : DBState) (p : ProjectEntity) : DBState × ProjectEntity :=
  match p.id with
  | none =>
      let p' := { p with id := some s.next_project_id }
      ({ s with projects := s.projects ++ [p'], next_project_id := s.next_project_id + 1 }, p')
  | some i =>
      ({ s with projects := s.projects.map (fun u => if u.id == some i then p else u) }, p)

/-- `CrudRepositoryORM.delete_by_id` for `ProjectRepository`. -/
def ProjectRepository.delete_by_id (s : DBState) (entity_id : Nat) : DBState :=
  match ProjectRepository.find_by_id s entity_id with
  | some _ => { s with projects := s.projects.filter (fun p => !(p.id == some entity_id)) }
  | none => s

/-- `CrudRepositoryORM.find_by_id` for `UserRepository`. -/
def UserRepository.find_by_id (s : DBState) (entity_id : Nat) : Option UserEntity :=
  s.users.find? (fun u => u.id == some entity_id)

/-- `CrudRepositoryORM.find_all` for `UserRepository`. -/
def UserRepository.find_all (s : DBState) : List UserEntity :=
  s.users

/-- `CrudRepositoryORM.save_or_update` for `UserRepository`. -/
def UserRepository.save_or_update (s : DBState) (u : UserEntity) : DBState × UserEntity :=
  match u.id with
  | none =>
      let u' := { u with id := some s.next_user_id }
      ({ s with users := s.users ++ [u'], next_user_id := s.next_user_id + 1 }, u')
  | some i =>
      ({ s with users := s.users.map (fun v => if v.id == some i then u else v) }, u)

/-- `CrudRepositoryORM.delete_by_id` for `UserRepository`. -/
def UserRepository.delete_by_id (s : DBState) (entity_id : Nat) : DBState :=
  match UserRepository.find_by_id s entity_id with
  | some _ => { s with users := s.users.filter (fun u => !(u.id == some entity_id)) }
  | none => s

/-- `UserRepository.find_by_email`:
`query(UserEntity).filter_by(email=email).first()`. -/
def UserRepository.find_by_email (s : DBState) (email : String) : Option UserEntity :=
  s.users.find? (fun u => u.email == email)

/-- `UserRepository.find_by_name`:
`query(UserEntity).filter_by(name=name).first()`. -/
def UserRepository.find_by_name (s : DBState) (name : String) : Option UserEntity :=
  s.users.find? (fun u => u.name == name)

/-- `CrudRepositoryORM.find_by_id` for `CommentRepository`. -/
def CommentRepository.find_by_id (s : DBState) (entity_id : Nat) : Option CommentEntity :=
  s.comments.find? (fun c => c.id == some entity_id)

/-- `CrudRepositoryORM.delete_by_id` for `CommentRepository`. -/
def CommentRepository.delete_by_id (s : DBState) (entity_id : Nat) : DBState :=
  match CommentRepository.find_by_id s entity_id with
  | some _ => { s with comments := s.comments.filter (fun c => !(c.id == some entity_id)) }
  | none => s

/-- `CrudRepositoryORM.save_or_update` for `TaskHistoryRepository`. -/
def TaskHistoryRepository.save_or_update (s : DBState) (h : TaskHistoryEntity) :
    DBState × TaskHistoryEntity :=
  match h.id with
  | none =>
      let h' := { h with id := some s.next_history_id }
      ({ s with task_history := s.task_history ++ [h'],
                next_history_id := s.next_history_id + 1 }, h')
  | some i =>
      ({ s with task_history := s.task_history.map (fun v => if v.id == some i then h else v) }, h)

/-- `TaskHistoryRepository.find_by_task_id`:
`query(TaskHistoryEntity).filter_by(task_id=task_id).all()`. -/
def TaskHistoryRepository.find_by_task_id (s : DBState) (task_id : Nat) :
    List TaskHistoryEntity :=
  s.task_history.filter (fun h => h.task_id == some task_id)

/-! ### Sorting (`find_all_sorted_by_date`)

`order_by(asc(col))` / `order_by(desc(col))` is modelled by a stable
insertion sort on the chosen date column. SQL leaves the order of rows with
equal keys unspecified; a stable sort (rows with equal keys keep table
order) is one deterministic refinement of that. `NULL` sorts before every
date, as in SQLite's default ascending order, so the sort key is an
`Option Nat` with `none` least. -/

/-- Comparison on nullable date columns: `none` (SQL `NULL`) is least. -/
def dleB : Option Nat → Option Nat → Bool
  | none, _ => true
  | some _, none => false
  | some a, some b => Nat.ble a b

/-- `order_by` on a date key: ascending, or descending when `descending`. -/
def sortByOrder {α : Type} (descending : Bool) (key : α → Option Nat) (l : List α) : List α :=
  if descending then List.insertionSort (fun a b => dleB (key b) (key a) = true) l
  else List.insertionSort (fun a b => dleB (key a) (key b) = true) l

/-- `ProjectRepository.find_all_sorted_by_date`: allow-listed field check,
then all projects ordered by that column. -/
def ProjectRepository.find_all_sorted_by_date (s : DBState) (sort_by : String)
    (descending : Bool) : Except String (List ProjectEntity) :=
  if sort_by = "start_date" ∨ sort_by = "end_date" then
    .ok (sortByOrder descending
      (fun p => if sort_by = "start_date" then some p.start_date else p.end_date) s.projects)
  else
    .error "Invalid sort field. Use 'start_date' or 'end_date'."

/-- `TaskRepository.find_all_sorted_by_date`: allow-listed field check, then
all tasks ordered by that column. -/
def TaskRepository.find_all_sorted_by_date (s : DBState) (sort_by : String)
    (descending : Bool) : Except String (List TaskEntity) :=
  if sort_by = "start_date" ∨ sort_by = "end_date" then
    .ok (sortByOrder descending
      (fun t => if sort_by = "start_date" then t.start_date else t.end_date) s.tasks)
  else
    .error "Invalid sort field. Use 'start_date' or 'end_date'."

/-! ### Errors

Services raise `ValueError`; `UserRepository.assign_user_to_project`
additionally runs into a `TypeError` (see below). -/

/-- The Python exceptions the embedded code can raise. -/
inductive PyErr where
  | valueError (msg : String)
  | typeError (msg : String)
deriving DecidableEq

/-- `UserRepository.assign_user_to_project`. The two existence checks raise
`ValueError` as in the source. The duplicate-assignment check
`if user not in project.users:` then evaluates `in` against
`ProjectEntity.users`, which `app/db/entity.py` line 84 declares as
`Mapped[UserEntity] = relationship("UserEntity", backref="projects")` — a
scalar many-to-one relationship along the `projects.user_id` foreign key,
not a collection. `x in y` on a `UserEntity` instance (or on `None`) raises
`TypeError: argument of type ... is not iterable`, so with both sides
existing the method always fails before recording anything. -/
def UserRepository.assign_user_to_project (s : DBState) (user_id project_id : Nat) :
    DBState × Except PyErr Unit :=
  match s.users.find? (fun u => u.id == some user_id) with
  | none => (s, .error (.valueError ("User with ID " ++ toString user_id ++ " does not exist.")))
  | some _ =>
    match s.projects.find? (fun p => p.id == some project_id) with
    | none =>
        (s, .error (.valueError ("Project with ID " ++ toString project_id ++ " does not exist.")))
    | some _ =>
        (s, .error (.typeError "argument of type UserEntity is not iterable"))

/-! ### Services (`app/service/*.py`)

Every service function threads the store: it returns the post-state paired
with the Python return value, `Except` capturing a `raise`. All three task
mutations check before writing, so on the error path the returned state is
the input state. -/

/-- `TaskServiceImpl.create_task`: verify the referenced project exists,
insert the task, then insert the creation history row. -/
def TaskServiceImpl.create_task (s : DBState) (dto : CreateTaskDto) (now : Nat) :
    DBState × Except String TaskEntity :=
  match ProjectRepository.find_by_id s dto.project_id with
  | none =>
      (s, .error ("Project with ID " ++ toString dto.project_id ++ " does not exist."))
  | some _ =>
      let task : TaskEntity :=
        { id := none, title := dto.title, description := some dto.description,
          start_date := some dto.start_date, end_date := dto.end_date,
          status := dto.status, project_id := dto.project_id }
      let (s1, task) := TaskRepository.save_or_update s task
      let history : TaskHistoryEntity :=
        { id := none,
          change_description := "New task '" ++ task.title ++ "' has been created.",
          change_date := now, task_id := task.id }
      let (s2, _) := TaskHistoryRepository.save_or_update s1 history
      (s2, .ok task)

/-- `TaskServiceImpl.delete_by_id`: look the task up, insert the deletion
history row first (while the task still exists), then delete the task. -/
def TaskServiceImpl.delete_by_id (s : DBState) (task_id : Nat) (now : Nat) :
    DBState × Except String Unit :=
  match TaskRepository.find_by_id s task_id with
  | none =>
      (s, .error ("Task with ID " ++ toString task_id ++ " does not exist."))
  | some task =>
      let history : TaskHistoryEntity :=
        { id := none,
          change_description := "Task '" ++ task.title ++ "' has been deleted.",
          change_date := now, task_id := task.id }
      let (s1, _) := TaskHistoryRepository.save_or_update s history
      (TaskRepository.delete_by_id s1 task_id, .ok ())

/-- `TaskServiceImpl.change_status`: look the task up, overwrite its status,
persist it, then insert the status-change history row (old and new values
rendered with the enum member names). -/
def TaskServiceImpl.change_status (s : DBState) (task_id : Nat)
    (new_status : TaskStatusEnum) (now : Nat) : DBState × Except String TaskEntity :=
  match TaskRepository.find_by_id s task_id with
  | none =>
      (s, .error ("Task with ID " ++ toString task_id ++ " does not exist."))
  | some task =>
      let old_status := task.status
      let task := { task with status := new_status }
      let (s1, task) := TaskRepository.save_or_update s task
      let history : TaskHistoryEntity :=
        { id := none,
          change_description := "Task '" ++ task.title ++ "' status changed from '"
            ++ old_status.name ++ "' to '" ++ new_status.name ++ "'.",
          change_date := now, task_id := task.id }
      let (s2, _) := TaskHistoryRepository.save_or_update s1 history
      (s2, .ok task)

/-- `TaskServiceImpl.find_all_tasks`. -/
def TaskServiceImpl.find_all_tasks (s : DBState) : List TaskEntity :=
  TaskRepository.find_all s

/-- `TaskServiceImpl.find_by_id`. -/
def TaskServiceImpl.find_by_id (s : DBState) (task_id : Nat) : Option TaskEntity :=
  TaskRepository.find_by_id s task_id

/-- `TaskServiceImpl.find_all_sorted_by_date`: the service re-checks the
allow-list before delegating to the repository. -/
def TaskServiceImpl.find_all_sorted_by_date (s : DBState) (sort_by : String)
    (descending : Bool) : Except String (List TaskEntity) :=
  if sort_by = "start_date" ∨ sort_by = "end_date" then
    TaskRepository.find_all_sorted_by_date s sort_by descending
  else
    .error "Invalid sorting field. Use 'start_date' or 'end_date'."

/-- `UserServiceImpl.create_user`: reject an email already in use, else
insert the user. -/
def UserServiceImpl.create_user (s : DBState) (dto : CreateUserDto) :
    DBState × Except String UserEntity :=
  match UserRepository.find_by_email s dto.email with
  | some _ => (s, .error "User with this email already exists.")
  | none =>
      let user : UserEntity :=
        { id := none, name := dto.name, surname := dto.surname, email := dto.email }
      let (s', user) := UserRepository.save_or_update s user
      (s', .ok user)

/-- `UserServiceImpl.delete_by_id`: straight pass-through. -/
def UserServiceImpl.delete_by_id (s : DBState) (user_id : Nat) : DBState :=
  UserRepository.delete_by_id s user_id

/-- `UserServiceImpl.find_by_id`. -/
def UserServiceImpl.find_by_id (s : DBState) (user_id : Nat) : Option UserEntity :=
  UserRepository.find_by_id s user_id

/-- `UserServiceImpl.assign_user_to_project`: straight pass-through. -/
def UserServiceImpl.assign_user_to_project (s : DBState) (user_id project_id : Nat) :
    DBState × Except PyErr Unit :=
  UserRepository.assign_user_to_project s user_id project_id

/-- `ProjectServiceImpl.create_project`: build the entity and persist it. -/
def ProjectServiceImpl.create_project (s : DBState) (dto : CreateProjectDto) :
    DBState × ProjectEntity :=
  let project : ProjectEntity :=
    { id := none, name := dto.name, description := dto.description,
      start_date := dto.start_date, end_date := dto.end_date,
      status := dto.status, user_id := dto.user_id }
  ProjectRepository.save_or_update s project

/-- `ProjectServiceImpl.delete_by_id`: straight pass-through. -/
def ProjectServiceImpl.delete_by_id (s : DBState) (project_id : Nat) : DBState :=
  ProjectRepository.delete_by_id s project_id

/-- `ProjectServiceImpl.find_by_id`. -/
def ProjectServiceImpl.find_by_id (s : DBState) (project_id : Nat) : Option ProjectEntity :=
  ProjectRepository.find_by_id s project_id

/-- `ProjectServiceImpl.find_all_sorted_by_date`: the service re-checks the
allow-list before delegating to the repository. -/
def ProjectServiceImpl.find_all_sorted_by_date (s : DBState) (sort_by : String)
    (descending : Bool) : Except String (List ProjectEntity) :=
  if sort_by = "start_date" ∨ sort_by = "end_date" then
    ProjectRepository.find_all_sorted_by_date s sort_by descending
  else
    .error "Invalid sorting field. Use 'start_date' or 'end_date'."

/-- `CommentServiceImpl.find_by_id`. -/
def CommentServiceImpl.find_by_id (s : DBState) (comment_id : Nat) : Option CommentEntity :=
  CommentRepository.find_by_id s comment_id

/-- `CommentServiceImpl.delete_by_id`: straight pass-through. -/
def CommentServiceImpl.delete_by_id (s : DBState) (comment_id : Nat) : DBState :=
  CommentRepository.delete_by_id s comment_id

/-! ### HTTP resources (`app/routes/*.py`)

A handler yields the post-state and an `HttpResponse`; the response `message`
is the body's `message` field (empty for data-carrying bodies, whose JSON
payload is outside the claims under verification). -/

/-- An HTTP status code with the body's `message` field. -/
structure HttpResponse where
  status : Nat
  message : String
deriving DecidableEq

/-- Request schema `CreateTaskSchema` from `task_resource.py`. -/
structure CreateTaskSchema where
  title : String
  description : String
  start_date : Nat
  end_date : Option Nat
  status : String
  project_id : Nat
deriving DecidableEq

/-- Request schema `UpdateTaskStatusSchema` from `task_resource.py`. -/
structure UpdateTaskStatusSchema where
  status : String
deriving DecidableEq

/-- Request schema `CreateProjectSchema` from `project_resource.py`. -/
structure CreateProjectSchema where
  name : String
  description : String
  start_date : Nat
  end_date : Option Nat
  status : String
  user_id : Nat
deriving DecidableEq

/-- Request schema `CreateUserSchema` from `user_resource.py`. -/
structure CreateUserSchema where
  name : String
  surname : String
  email : String
deriving DecidableEq

/-- Request schema `CreateCommentSchema` from `comment_resource.py`. -/
structure CreateCommentSchema where
  content : String
  task_id : Nat
deriving DecidableEq

/-- `TaskResourceID.get`: 200 with the task, else 404. -/
def TaskResourceID.get (s : DBState) (id_ : Nat) : HttpResponse :=
  match TaskServiceImpl.find_by_id s id_ with
  | some _ => { status := 200, message := "" }
  | none => { status := 404, message := "Task not found" }

/-- `TaskResourceID.delete`: delete when the task exists (the service cannot
then raise), else 500 with `Task not deleted`. -/
def TaskResourceID.delete (s : DBState) (id_ : Nat) (now : Nat) : DBState × HttpResponse :=
  match TaskServiceImpl.find_by_id s id_ with
  | some _ =>
      let (s', r) := TaskServiceImpl.delete_by_id s id_ now
      match r with
      | .ok _ => (s', { status := 200, message := "Task deleted" })
      | .error _ =>
          -- no handler around the service call: an exception would surface
          -- as the framework's generic 500
          (s', { status := 500, message := "Internal Server Error" })
  | none => (s, { status := 500, message := "Task not deleted" })

/-- `TaskResourceID.put`: 404 when the task is missing, 400 on a bad status
string (upper-cased before the enum lookup), else change the status. -/
def TaskResourceID.put (s : DBState) (id_ : Nat) (body : UpdateTaskStatusSchema)
    (now : Nat) : DBState × HttpResponse :=
  match TaskServiceImpl.find_by_id s id_ with
  | none => (s, { status := 404, message := "Task not found" })
  | some _ =>
      match TaskStatusEnum.fromName (pyUpper body.status) with
      | none => (s, { status := 400, message := "Invalid status value: " ++ body.status })
      | some new_status =>
          let (s', r) := TaskServiceImpl.change_status s id_ new_status now
          match r with
          | .ok _ => (s', { status := 200, message := "Task status updated successfully." })
          | .error _ => (s', { status := 500, message := "Error updating task status" })

/-- `TaskAddToProjectResource.post`: validate the status string (upper-cased
before the enum lookup), then create; a service `ValueError` is caught by
the handler's broad `except` and mapped to 400. -/
def TaskAddToProjectResource.post (s : DBState) (body : CreateTaskSchema)
    (now : Nat) : DBState × HttpResponse :=
  match TaskStatusEnum.fromName (pyUpper body.status) with
  | none => (s, { status := 400, message := "Invalid status value: " ++ body.status })
  | some status =>
      let dto : CreateTaskDto :=
        { title := body.title, description := body.description,
          start_date := body.start_date, end_date := body.end_date,
          status := status, project_id := body.project_id }
      let (s', r) := TaskServiceImpl.create_task s dto now
      match r with
      | .ok _ => (s', { status := 201, message := "Task added successfully!" })
      | .error _ => (s', { status := 400, message := "Error processing the request" })

/-- `ProjectResourceID.get`: 200 with the project, else 404. -/
def ProjectResourceID.get (s : DBState) (id_ : Nat) : HttpResponse :=
  match ProjectServiceImpl.find_by_id s id_ with
  | some _ => { status := 200, message := "" }
  | none => { status := 404, message := "Project not found" }

/-- `ProjectResourceID.delete`: delete when the project exists, else 500
with `Project not deleted`. -/
def ProjectResourceID.delete (s : DBState) (id_ : Nat) : DBState × HttpResponse :=
  match ProjectServiceImpl.find_by_id s id_ with
  | some _ => (ProjectServiceImpl.delete_by_id s id_, { status := 200, message := "Project deleted" })
  | none => (s, { status := 500, message := "Project not deleted" })

/-- `ProjectResourceAdd.post`. `ProjectStatusEnum[body.status]` looks the
status up by exact member name; on a non-member it raises `KeyError`, which
the inner `except ValueError` does not catch, so it falls through to the
handler's outer broad `except` and returns 400 with
`Error processing the request`. -/
def ProjectResourceAdd.post (s : DBState) (body : CreateProjectSchema) :
    DBState × HttpResponse :=
  match ProjectStatusEnum.fromName body.status with
  | none => (s, { status := 400, message := "Error processing the request" })
  | some status =>
      let dto : CreateProjectDto :=
        { name := body.name, description := body.description,
          start_date := body.start_date, end_date := body.end_date,
          status := status, user_id := body.user_id }
      let (s', _) := ProjectServiceImpl.create_project s dto
      (s', { status := 201, message := "Project added successfully!" })

/-- `UserResourceID.get`: 200 with the user, else 404. -/
def UserResourceID.get (s : DBState) (id_ : Nat) : HttpResponse :=
  match UserServiceImpl.find_by_id s id_ with
  | some _ => { status := 200, message := "" }
  | none => { status := 404, message := "User not found" }

/-- `UserResourceID.delete`: delete when the user exists, else 500 with
`User not deleted`. -/
def UserResourceID.delete (s : DBState) (id_ : Nat) : DBState × HttpResponse :=
  match UserServiceImpl.find_by_id s id_ with
  | some _ => (UserServiceImpl.delete_by_id s id_, { status := 200, message := "User deleted" })
  | none => (s, { status := 500, message := "User not deleted" })

/-- `UserAddResource.post`: the service's `ValueError` (duplicate email) is
mapped to 409; on success `jsonify` replies with HTTP 200 (the body merely
carries a `status: 201` field). -/
def UserAddResource.post (s : DBState) (body : CreateUserSchema) : DBState × HttpResponse :=
  let (s', r) := UserServiceImpl.create_user s
    { name := body.name, surname := body.surname, email := body.email }
  match r with
  | .ok _ => (s', { status := 200, message := "" })
  | .error msg => (s', { status := 409, message := msg })

/-- `CommentResourceID.get`: 200 with the comment, else 404. -/
def CommentResourceID.get (s : DBState) (id_ : Nat) : HttpResponse :=
  match CommentServiceImpl.find_by_id s id_ with
  | some _ => { status := 200, message := "" }
  | none => { status := 404, message := "Comment not found" }

/-- `CommentResourceID.delete`: delete when the comment exists, else 500
with `Comment not deleted`. -/
def CommentResourceID.delete (s : DBState) (id_ : Nat) : DBState × HttpResponse :=
  match CommentServiceImpl.find_by_id s id_ with
  | some _ => (CommentServiceImpl.delete_by_id s id_, { status := 200, message := "Comment deleted" })
  | none => (s, { status := 500, message := "Comment not deleted" })

/-- `CommentResourceID.put`: 404 when the comment is missing. When it is
found, the handler calls `comment_service.update_by_id`, a method
`CommentServiceImpl` does not define; the `AttributeError` is caught by the
handler's broad `except` and mapped to 500. -/
def CommentResourceID.put (s : DBState) (id_ : Nat) (_body : CreateCommentSchema)
    (_now : Nat) : DBState × HttpResponse :=
  match CommentServiceImpl.find_by_id s id_ with
  | none => (s, { status := 404, message := "Comment not found" })
  | some _ => (s, { status := 500, message := "Error updating the comment" })

/-! ### Concrete stores used by witnesses and counterexamples -/

deriving instance DecidableEq for Except

/-- A demo user, primary key 1. -/
def demoUser : UserEntity :=
  { id := some 1, name := "Ada", surname := "Nowak", email := "ada@example.com" }

/-- A demo project, primary key 1, owned by user 1. -/
def demoProject : ProjectEntity :=
  { id := some 1, name := "Apollo", description := "demo project",
    start_date := 10, end_date := none, status := .PLANNED, user_id := 1 }

/-- A demo task, primary key 1, in project 1. -/
def demoTask : TaskEntity :=
  { id := some 1, title := "Write docs", description := some "write the docs",
    start_date := some 11, end_date := none, status := .TO_DO, project_id := 1 }

/-- A small populated store: one user, one project, one task. -/
def demoState : DBState :=
  { users := [demoUser], projects := [demoProject], tasks := [demoTask],
    comments := [], task_history := [],
    next_user_id := 2, next_project_id := 2, next_task_id := 2,
    next_comment_id := 1, next_history_id := 1 }

/-- The empty store. -/
def emptyDB : DBState :=
  { users := [], projects := [], tasks := [], comments := [], task_history := [],
    next_user_id := 1, next_project_id := 1, next_task_id := 1,
    next_comment_id := 1, next_history_id := 1 }

/-- A store with two projects and two tasks sharing one `start_date`,
exhibiting the tie-breaking behaviour of the sorts. -/
def tieState : DBState :=
  { users := [demoUser],
    projects :=
      [{ id := some 1, name := "Alpha", description := "first",
         start_date := 7, end_date := none, status := .PLANNED, user_id := 1 },
       { id := some 2, name := "Beta", description := "second",
         start_date := 7, end_date := none, status := .PLANNED, user_id := 1 }],
    tasks := [], comments := [], task_history := [],
    next_user_id := 2, next_project_id := 3, next_task_id := 1,
    next_comment_id := 1, next_history_id := 1 }

/-- A store whose projects and tasks have pairwise-distinct start dates. -/
def distinctDatesState : DBState :=
  { users := [demoUser],
    projects :=
      [{ id := some 1, name := "Alpha", description := "first",
         start_date := 9, end_date := none, status := .PLANNED, user_id := 1 },
       { id := some 2, name := "Beta", description := "second",
         start_date := 4, end_date := none, status := .PLANNED, user_id := 1 }],
    tasks :=
      [{ id := some 1, title := "T1", description := none, start_date := some 6,
         end_date := none, status := .TO_DO, project_id := 1 },
       { id := some 2, title := "T2", description := none, start_date := some 2,
         end_date := none, status := .TO_DO, project_id := 1 }],
    comments := [], task_history := [],
    next_user_id := 2, next_project_id := 3, next_task_id := 3,
    next_comment_id := 1, next_history_id := 1 }

/-! ### Helper lemmas -/

/-- A row returned by a primary-key lookup carries that primary key. -/
theorem TaskRepository.find_by_id_id {s : DBState} {i : Nat} {t : TaskEntity}
    (h : TaskRepository.find_by_id s i = some t) : t.id = some i := by
  simpa using List.find?_some h

/-- `dleB` is total. -/
theorem dleB_total (x y : Option Nat) : dleB x y = true ∨ dleB y x = true := by
  cases x <;> cases y <;> simp [dleB, Nat.ble_eq]
  omega

/-- `dleB` is transitive. -/
theorem dleB_trans {x y z : Option Nat} (h1 : dleB x y = true) (h2 : dleB y z = true) :
    dleB x z = true := by
  cases x <;> cases y <;> cases z <;> simp_all [dleB, Nat.ble_eq]
  omega

/-- `dleB` is antisymmetric. -/
theorem dleB_antisymm {x y : Option Nat} (h1 : dleB x y = true) (h2 : dleB y x = true) :
    x = y := by
  cases x <;> cases y <;> simp_all [dleB, Nat.ble_eq]
  omega

/-- On rows whose sort keys are pairwise distinct, the descending sort is
exactly the reverse of the ascending sort: both are permutations of the
input that are strictly sorted by the key, in opposite directions. -/
theorem insertionSort_flip_reverse {α : Type} (key : α → Option Nat) (l : List α)
    (hnd : l.Pairwise (fun a b => key a ≠ key b)) :
    List.insertionSort (fun a b => dleB (key b) (key a) = true) l
      = (List.insertionSort (fun a b => dleB (key a) (key b) = true) l).reverse := by
  haveI : IsTotal α (fun a b => dleB (key a) (key b) = true) :=
    ⟨fun a b => dleB_total (key a) (key b)⟩
  haveI : IsTrans α (fun a b => dleB (key a) (key b) = true) :=
    ⟨fun _ _ _ h1 h2 => dleB_trans h1 h2⟩
  haveI : IsTotal α (fun a b => dleB (key b) (key a) = true) :=
    ⟨fun a b => dleB_total (key b) (key a)⟩
  haveI : IsTrans α (fun a b => dleB (key b) (key a) = true) :=
    ⟨fun _ _ _ h1 h2 => dleB_trans h2 h1⟩
  haveI : IsAntisymm α (fun a b => dleB (key a) (key b) = true ∧ key a ≠ key b) :=
    ⟨fun a b hab hba => absurd (dleB_antisymm hab.1 hba.1) hab.2⟩
  have hpa := List.perm_insertionSort (fun a b => dleB (key a) (key b) = true) l
  have hpd := List.perm_insertionSort (fun a b => dleB (key b) (key a) = true) l
  have hsa := List.sorted_insertionSort (fun a b => dleB (key a) (key b) = true) l
  have hsd := List.sorted_insertionSort (fun a b => dleB (key b) (key a) = true) l
  have hsdr : List.Sorted (fun a b => dleB (key a) (key b) = true)
      (List.insertionSort (fun a b => dleB (key b) (key a) = true) l).reverse := by
    rw [List.Sorted, List.pairwise_reverse]
    exact hsd
  have hperm : List.Perm
      (List.insertionSort (fun a b => dleB (key b) (key a) = true) l).reverse
      (List.insertionSort (fun a b => dleB (key a) (key b) = true) l) :=
    ((List.reverse_perm _).trans hpd).trans hpa.symm
  have hsymm : ∀ {x y : α}, key x ≠ key y → key y ≠ key x := fun h h' => h h'.symm
  have hna : (List.insertionSort (fun a b => dleB (key a) (key b) = true) l).Pairwise
      (fun a b => key a ≠ key b) :=
    (hpa.pairwise_iff hsymm).mpr hnd
  have hndr : (List.insertionSort (fun a b => dleB (key b) (key a) = true) l).reverse.Pairwise
      (fun a b => key a ≠ key b) :=
    ((((List.reverse_perm _).trans hpd)).pairwise_iff hsymm).mpr hnd
  have heq := List.eq_of_perm_of_sorted hperm (hsdr.and hndr) (hsa.and hna)
  have h2 := congrArg List.reverse heq
  rw [List.reverse_reverse] at h2
  exact h2

/-! ### Claims -/

/-- Claim C2: for every CreateTaskDto whose `project_id` matches no stored
project, `create_task` fails with the domain error and the store is
unchanged — no Task row and no TaskHistory row is inserted. -/
theorem C2_create_task_missing_project (s : DBState) (dto : CreateTaskDto) (now : Nat)
    (h : ∀ p ∈ s.projects, p.id ≠ some dto.project_id) :
    (TaskServiceImpl.create_task s dto now).1 = s
    ∧ (TaskServiceImpl.create_task s dto now).2 =
        .error ("Project with ID " ++ toString dto.project_id ++ " does not exist.") := by
  have hfind : ProjectRepository.find_by_id s dto.project_id = none := by
    apply List.find?_eq_none.mpr
    intro p hp
    simpa using h p hp
  constructor <;> simp [TaskServiceImpl.create_task, hfind]

/-- The DTO used to witness claim C2: its `project_id` is 42, absent from
`demoState`. -/
def missingProjectDto : CreateTaskDto :=
  { title := "T", description := "d", start_date := 1, end_date := none,
    status := .TO_DO, project_id := 42 }

/-- Witness for claim C2 at `demoState` and `missingProjectDto`. -/
theorem C2_witness :
    (∀ p ∈ demoState.projects, p.id ≠ some missingProjectDto.project_id)
    ∧ ((TaskServiceImpl.create_task demoState missingProjectDto 0).1 = demoState
       ∧ (TaskServiceImpl.create_task demoState missingProjectDto 0).2 =
           .error ("Project with ID " ++ toString missingProjectDto.project_id
             ++ " does not exist.")) :=
  ⟨by decide, C2_create_task_missing_project demoState missingProjectDto 0 (by decide)⟩

/-- Claim C4: creating a user whose email is already stored fails with the
conflict error, the resource maps it to HTTP 409, and the stored users are
unchanged. -/
theorem C4_duplicate_email_conflict (s : DBState) (body : CreateUserSchema)
    (h : ∃ u ∈ s.users, u.email = body.email) :
    (UserServiceImpl.create_user s
        { name := body.name, surname := body.surname, email := body.email }).1 = s
    ∧ (UserServiceImpl.create_user s
        { name := body.name, surname := body.surname, email := body.email }).2 =
        .error "User with this email already exists."
    ∧ (UserAddResource.post s body).1 = s
    ∧ (UserAddResource.post s body).2.status = 409 := by
  obtain ⟨u, hu, he⟩ := h
  have hsome : (UserRepository.find_by_email s body.email).isSome := by
    rw [UserRepository.find_by_email, List.find?_isSome]
    exact ⟨u, hu, by simpa using he⟩
  obtain ⟨v, hv⟩ := Option.isSome_iff_exists.mp hsome
  refine ⟨?_, ?_, ?_, ?_⟩ <;>
    simp [UserAddResource.post, UserServiceImpl.create_user, hv]

/-- The request body used to witness claim C4: `demoUser`'s email. -/
def duplicateEmailBody : CreateUserSchema :=
  { name := "Eve", surname := "Kowalska", email := "ada@example.com" }

/-- Witness for claim C4 at `demoState` and `duplicateEmailBody`. -/
theorem C4_witness :
    (∃ u ∈ demoState.users, u.email = duplicateEmailBody.email)
    ∧ ((UserServiceImpl.create_user demoState
          { name := duplicateEmailBody.name, surname := duplicateEmailBody.surname,
            email := duplicateEmailBody.email }).1 = demoState
       ∧ (UserServiceImpl.create_user demoState
          { name := duplicateEmailBody.name, surname := duplicateEmailBody.surname,
            email := duplicateEmailBody.email }).2 =
            .error "User with this email already exists."
       ∧ (UserAddResource.post demoState duplicateEmailBody).1 = demoState
       ∧ (UserAddResource.post demoState duplicateEmailBody).2.status = 409) :=
  ⟨⟨demoUser, by decide, by decide⟩,
   C4_duplicate_email_conflict demoState duplicateEmailBody
     ⟨demoUser, by decide, by decide⟩⟩

/-- Claim C7: every sort field outside the allow-list {start_date, end_date}
makes the project and task sorting operations fail with the invalid-argument
error, at the repository layer and at the service layer alike. -/
theorem C7_invalid_sort_field (s : DBState) (field : String) (descending : Bool)
    (h1 : field ≠ "start_date") (h2 : field ≠ "end_date") :
    ProjectRepository.find_all_sorted_by_date s field descending =
      .error "Invalid sort field. Use 'start_date' or 'end_date'."
    ∧ TaskRepository.find_all_sorted_by_date s field descending =
      .error "Invalid sort field. Use 'start_date' or 'end_date'."
    ∧ ProjectServiceImpl.find_all_sorted_by_date s field descending =
      .error "Invalid sorting field. Use 'start_date' or 'end_date'."
    ∧ TaskServiceImpl.find_all_sorted_by_date s field descending =
      .error "Invalid sorting field. Use 'start_date' or 'end_date'." := by
  refine ⟨?_, ?_, ?_, ?_⟩ <;>
    simp [ProjectRepository.find_all_sorted_by_date, TaskRepository.find_all_sorted_by_date,
      ProjectServiceImpl.find_all_sorted_by_date, TaskServiceImpl.find_all_sorted_by_date,
      h1, h2]

/-- Witness for claim C7 at `demoState` with the field `title`. -/
theorem C7_witness :
    (("title" : String) ≠ "start_date" ∧ ("title" : String) ≠ "end_date")
    ∧ (ProjectRepository.find_all_sorted_by_date demoState "title" false =
        .error "Invalid sort field. Use 'start_date' or 'end_date'."
       ∧ TaskRepository.find_all_sorted_by_date demoState "title" false =
        .error "Invalid sort field. Use 'start_date' or 'end_date'."
       ∧ ProjectServiceImpl.find_all_sorted_by_date demoState "title" false =
        .error "Invalid sorting field. Use 'start_date' or 'end_date'."
       ∧ TaskServiceImpl.find_all_sorted_by_date demoState "title" false =
        .error "Invalid sorting field. Use 'start_date' or 'end_date'.") :=
  ⟨⟨by decide, by decide⟩,
   C7_invalid_sort_field demoState "title" false (by decide) (by decide)⟩

/-- Claim C9: the two existence checks of `assign_user_to_project` do raise
the documented invalid-argument errors, but with both sides existing the
method always raises `TypeError` at `user not in project.users` — the
duplicate-assignment check and the recording of the assignment are
unreachable, because `ProjectEntity.users` is a scalar many-to-one
relationship, not a collection. Evaluated at user 1 and project 1 of
`demoState` (both exist) and at the empty store. -/
theorem C9_assign_user_to_project_behaviour :
    (UserRepository.assign_user_to_project demoState 1 1).2
      = .error (.typeError "argument of type UserEntity is not iterable")
    ∧ (UserRepository.assign_user_to_project demoState 1 1).1 = demoState
    ∧ (UserRepository.assign_user_to_project emptyDB 1 1).2
      = .error (.valueError "User with ID 1 does not exist.")
    ∧ (UserRepository.assign_user_to_project
        { demoState with projects := [] } 1 7).2
      = .error (.valueError "Project with ID 7 does not exist.") := by
  decide

/-- Claim C1: every successful task mutation through the task service —
create, delete, or status change — inserts exactly one new TaskHistory row,
referencing the mutated task's id, with the documented template text:
creation, deletion, and status-change messages respectively. -/
theorem C1_history_templates (s : DBState) (dto : CreateTaskDto) (tid : Nat)
    (t : TaskEntity) (new_status : TaskStatusEnum) (now : Nat)
    (hproj : ProjectRepository.find_by_id s dto.project_id ≠ none)
    (hfind : TaskRepository.find_by_id s tid = some t) :
    (∃ task hrow, (TaskServiceImpl.create_task s dto now).2 = .ok task
      ∧ (TaskServiceImpl.create_task s dto now).1.task_history = s.task_history ++ [hrow]
      ∧ hrow.change_description = "New task '" ++ dto.title ++ "' has been created."
      ∧ hrow.task_id = task.id ∧ task.id ≠ none)
    ∧ (∃ hrow, (TaskServiceImpl.delete_by_id s tid now).2 = .ok ()
      ∧ (TaskServiceImpl.delete_by_id s tid now).1.task_history = s.task_history ++ [hrow]
      ∧ hrow.change_description = "Task '" ++ t.title ++ "' has been deleted."
      ∧ hrow.task_id = some tid)
    ∧ (∃ task hrow, (TaskServiceImpl.change_status s tid new_status now).2 = .ok task
      ∧ (TaskServiceImpl.change_status s tid new_status now).1.task_history
          = s.task_history ++ [hrow]
      ∧ hrow.change_description = "Task '" ++ t.title ++ "' status changed from '"
          ++ t.status.name ++ "' to '" ++ new_status.name ++ "'."
      ∧ hrow.task_id = some tid) := by
  obtain ⟨p, hp⟩ := Option.ne_none_iff_exists'.mp hproj
  have htid : t.id = some tid := TaskRepository.find_by_id_id hfind
  have hfind' : s.tasks.find? (fun u => u.id == some tid) = some t := hfind
  refine ⟨?_, ?_, ?_⟩
  · simp only [TaskServiceImpl.create_task, hp, TaskRepository.save_or_update,
      TaskHistoryRepository.save_or_update]
    exact ⟨_, _, rfl, rfl, rfl, rfl, by simp⟩
  · simp only [TaskServiceImpl.delete_by_id, TaskRepository.find_by_id,
      TaskRepository.delete_by_id, TaskHistoryRepository.save_or_update, hfind']
    exact ⟨_, trivial, rfl, rfl, htid⟩
  · simp only [TaskServiceImpl.change_status, TaskRepository.find_by_id, hfind', htid,
      TaskRepository.save_or_update, TaskHistoryRepository.save_or_update]
    exact ⟨_, _, rfl, rfl, rfl, rfl⟩

/-- The DTO used to witness claims C1 and C5-adjacent facts: it references
project 1, which exists in `demoState`. -/
def demoCreateDto : CreateTaskDto :=
  { title := "New feature", description := "implement it", start_date := 12,
    end_date := none, status := .TO_DO, project_id := 1 }

/-- Witness for claim C1 at `demoState`, `demoCreateDto`, and task 1. -/
theorem C1_witness :
    (ProjectRepository.find_by_id demoState demoCreateDto.project_id ≠ none
     ∧ TaskRepository.find_by_id demoState 1 = some demoTask)
    ∧ ((∃ task hrow, (TaskServiceImpl.create_task demoState demoCreateDto 0).2 = .ok task
        ∧ (TaskServiceImpl.create_task demoState demoCreateDto 0).1.task_history
            = demoState.task_history ++ [hrow]
        ∧ hrow.change_description
            = "New task '" ++ demoCreateDto.title ++ "' has been created."
        ∧ hrow.task_id = task.id ∧ task.id ≠ none)
      ∧ (∃ hrow, (TaskServiceImpl.delete_by_id demoState 1 0).2 = .ok ()
        ∧ (TaskServiceImpl.delete_by_id demoState 1 0).1.task_history
            = demoState.task_history ++ [hrow]
        ∧ hrow.change_description = "Task '" ++ demoTask.title ++ "' has been deleted."
        ∧ hrow.task_id = some 1)
      ∧ (∃ task hrow,
          (TaskServiceImpl.change_status demoState 1 .IN_PROGRESS 0).2 = .ok task
        ∧ (TaskServiceImpl.change_status demoState 1 .IN_PROGRESS 0).1.task_history
            = demoState.task_history ++ [hrow]
        ∧ hrow.change_description = "Task '" ++ demoTask.title ++ "' status changed from '"
            ++ demoTask.status.name ++ "' to '" ++ TaskStatusEnum.IN_PROGRESS.name ++ "'."
        ∧ hrow.task_id = some 1)) :=
  ⟨⟨by decide, by decide⟩,
   C1_history_templates demoState demoCreateDto 1 demoTask .IN_PROGRESS 0
     (by decide) (by decide)⟩

/-- Claim C3: for an existing task, `delete_by_id` inserts the deletion
history row while the task row still exists — the delete factors through the
intermediate store holding the new history row, in which the task is still
found — and afterwards the task is absent from `find_all` while all history
rows (the old ones and the new deletion row) remain queryable. -/
theorem C3_delete_ordering (s : DBState) (tid : Nat) (t : TaskEntity) (now : Nat)
    (hfind : TaskRepository.find_by_id s tid = some t) :
    TaskRepository.find_by_id
      ((TaskHistoryRepository.save_or_update s
        { id := none, change_description := "Task '" ++ t.title ++ "' has been deleted.",
          change_date := now, task_id := t.id }).1) tid = some t
    ∧ (TaskServiceImpl.delete_by_id s tid now).1
        = TaskRepository.delete_by_id
            ((TaskHistoryRepository.save_or_update s
              { id := none, change_description := "Task '" ++ t.title ++ "' has been deleted.",
                change_date := now, task_id := t.id }).1) tid
    ∧ (∀ u ∈ TaskRepository.find_all (TaskServiceImpl.delete_by_id s tid now).1,
        u.id ≠ some tid)
    ∧ (TaskServiceImpl.delete_by_id s tid now).1.task_history
        = s.task_history ++
          [{ id := some s.next_history_id,
             change_description := "Task '" ++ t.title ++ "' has been deleted.",
             change_date := now, task_id := t.id }] := by
  have hfind' : s.tasks.find? (fun u => u.id == some tid) = some t := hfind
  refine ⟨?_, ?_, ?_, ?_⟩
  · simp only [TaskHistoryRepository.save_or_update, TaskRepository.find_by_id]
    exact hfind'
  · simp only [TaskServiceImpl.delete_by_id, TaskRepository.find_by_id,
      TaskHistoryRepository.save_or_update, TaskRepository.delete_by_id, hfind']
  · intro u hu
    simp only [TaskServiceImpl.delete_by_id, TaskRepository.find_by_id,
      TaskHistoryRepository.save_or_update, TaskRepository.delete_by_id, hfind',
      TaskRepository.find_all, List.mem_filter] at hu
    simpa using hu.2
  · simp only [TaskServiceImpl.delete_by_id, TaskRepository.find_by_id,
      TaskHistoryRepository.save_or_update, TaskRepository.delete_by_id, hfind']

/-- Witness for claim C3 at `demoState` and task 1. -/
theorem C3_witness :
    TaskRepository.find_by_id demoState 1 = some demoTask
    ∧ (TaskRepository.find_by_id
        ((TaskHistoryRepository.save_or_update demoState
          { id := none,
            change_description := "Task '" ++ demoTask.title ++ "' has been deleted.",
            change_date := 0, task_id := demoTask.id }).1) 1 = some demoTask
      ∧ (TaskServiceImpl.delete_by_id demoState 1 0).1
          = TaskRepository.delete_by_id
              ((TaskHistoryRepository.save_or_update demoState
                { id := none,
                  change_description := "Task '" ++ demoTask.title ++ "' has been deleted.",
                  change_date := 0, task_id := demoTask.id }).1) 1
      ∧ (∀ u ∈ TaskRepository.find_all (TaskServiceImpl.delete_by_id demoState 1 0).1,
          u.id ≠ some 1)
      ∧ (TaskServiceImpl.delete_by_id demoState 1 0).1.task_history
          = demoState.task_history ++
            [{ id := some demoState.next_history_id,
               change_description := "Task '" ++ demoTask.title ++ "' has been deleted.",
               change_date := 0, task_id := demoTask.id }]) :=
  ⟨by decide, C3_delete_ordering demoState 1 demoTask 0 (by decide)⟩

/-- Claim C10: for an existing task and any new status, `change_status`
changes only that task's status field — id, title, description, dates and
`project_id` are preserved, every other task row maps to itself, the user,
project and comment tables are untouched — and the only added row is the
single new history entry referencing the task. -/
theorem C10_change_status_frame (s : DBState) (tid : Nat) (t : TaskEntity)
    (new_status : TaskStatusEnum) (now : Nat)
    (hfind : TaskRepository.find_by_id s tid = some t) :
    ∃ task hrow,
      (TaskServiceImpl.change_status s tid new_status now).2 = .ok task
      ∧ task.id = t.id ∧ task.title = t.title ∧ task.description = t.description
      ∧ task.start_date = t.start_date ∧ task.end_date = t.end_date
      ∧ task.project_id = t.project_id ∧ task.status = new_status
      ∧ (TaskServiceImpl.change_status s tid new_status now).1.tasks
          = s.tasks.map (fun u => if u.id == some tid then task else u)
      ∧ (∀ u ∈ s.tasks, u.id ≠ some tid →
          u ∈ (TaskServiceImpl.change_status s tid new_status now).1.tasks)
      ∧ (TaskServiceImpl.change_status s tid new_status now).1.users = s.users
      ∧ (TaskServiceImpl.change_status s tid new_status now).1.projects = s.projects
      ∧ (TaskServiceImpl.change_status s tid new_status now).1.comments = s.comments
      ∧ (TaskServiceImpl.change_status s tid new_status now).1.task_history
          = s.task_history ++ [hrow]
      ∧ hrow.task_id = some tid := by
  have htid : t.id = some tid := TaskRepository.find_by_id_id hfind
  have hfind' : s.tasks.find? (fun u => u.id == some tid) = some t := hfind
  simp only [TaskServiceImpl.change_status, TaskRepository.find_by_id, hfind', htid,
    TaskRepository.save_or_update, TaskHistoryRepository.save_or_update]
  refine ⟨_, _, rfl, rfl, rfl, rfl, rfl, rfl, rfl, rfl, rfl, ?_, trivial, trivial,
    trivial, rfl, rfl⟩
  intro u hu hne
  exact List.mem_map.mpr ⟨u, hu, by simp [hne]⟩

/-- Witness for claim C10 at `demoState`, task 1, new status BLOCKED. -/
theorem C10_witness :
    TaskRepository.find_by_id demoState 1 = some demoTask
    ∧ (∃ task hrow,
        (TaskServiceImpl.change_status demoState 1 .BLOCKED 0).2 = .ok task
        ∧ task.id = demoTask.id ∧ task.title = demoTask.title
        ∧ task.description = demoTask.description
        ∧ task.start_date = demoTask.start_date ∧ task.end_date = demoTask.end_date
        ∧ task.project_id = demoTask.project_id ∧ task.status = .BLOCKED
        ∧ (TaskServiceImpl.change_status demoState 1 .BLOCKED 0).1.tasks
            = demoState.tasks.map (fun u => if u.id == some 1 then task else u)
        ∧ (∀ u ∈ demoState.tasks, u.id ≠ some 1 →
            u ∈ (TaskServiceImpl.change_status demoState 1 .BLOCKED 0).1.tasks)
        ∧ (TaskServiceImpl.change_status demoState 1 .BLOCKED 0).1.users = demoState.users
        ∧ (TaskServiceImpl.change_status demoState 1 .BLOCKED 0).1.projects
            = demoState.projects
        ∧ (TaskServiceImpl.change_status demoState 1 .BLOCKED 0).1.comments
            = demoState.comments
        ∧ (TaskServiceImpl.change_status demoState 1 .BLOCKED 0).1.task_history
            = demoState.task_history ++ [hrow]
        ∧ hrow.task_id = some 1) :=
  ⟨by decide, C10_change_status_frame demoState 1 demoTask .BLOCKED 0 (by decide)⟩

/-- Claim C5: task status strings are matched case-insensitively by
upper-casing — posting a task with status string `to_do` normalizes to
`TO_DO`, the request is accepted with 201, and the stored task carries
status `TO_DO` — while project status strings are matched case-sensitively:
posting a project with status string `planned` is rejected with 400 and
stores nothing. -/
theorem C5_status_case_handling (s : DBState) (body : CreateTaskSchema)
    (now : Nat) (hstatus : body.status = "to_do")
    (hproj : ProjectRepository.find_by_id s body.project_id ≠ none) :
    TaskStatusEnum.fromName (pyUpper body.status) = some .TO_DO
    ∧ (TaskAddToProjectResource.post s body now).2.status = 201
    ∧ (∃ task, (TaskAddToProjectResource.post s body now).1.tasks = s.tasks ++ [task]
        ∧ task.status = .TO_DO)
    ∧ (∀ (s2 : DBState) (pbody : CreateProjectSchema), pbody.status = "planned" →
        (ProjectResourceAdd.post s2 pbody).2.status = 400
        ∧ (ProjectResourceAdd.post s2 pbody).1 = s2) := by
  obtain ⟨p, hp⟩ := Option.ne_none_iff_exists'.mp hproj
  have hparse : TaskStatusEnum.fromName (pyUpper body.status) = some .TO_DO := by
    rw [hstatus]; decide
  refine ⟨hparse, ?_, ?_, ?_⟩
  · simp [TaskAddToProjectResource.post, hparse, TaskServiceImpl.create_task, hp,
      TaskRepository.save_or_update, TaskHistoryRepository.save_or_update]
  · simp only [TaskAddToProjectResource.post, hparse, TaskServiceImpl.create_task, hp,
      TaskRepository.save_or_update, TaskHistoryRepository.save_or_update]
    exact ⟨_, rfl, rfl⟩
  · intro s2 pbody hpb
    have hnone : ProjectStatusEnum.fromName pbody.status = none := by rw [hpb]; decide
    constructor <;> simp [ProjectResourceAdd.post, hnone]

/-- The request body used to witness claim C5: a lowercase task status. -/
def toDoBody : CreateTaskSchema :=
  { title := "Case test", description := "case", start_date := 3, end_date := none,
    status := "to_do", project_id := 1 }

/-- Witness for claim C5 at `demoState` and `toDoBody`. -/
theorem C5_witness :
    (toDoBody.status = "to_do"
     ∧ ProjectRepository.find_by_id demoState toDoBody.project_id ≠ none)
    ∧ (TaskStatusEnum.fromName (pyUpper toDoBody.status) = some .TO_DO
      ∧ (TaskAddToProjectResource.post demoState toDoBody 0).2.status = 201
      ∧ (∃ task, (TaskAddToProjectResource.post demoState toDoBody 0).1.tasks
            = demoState.tasks ++ [task]
          ∧ task.status = .TO_DO)
      ∧ (∀ (s2 : DBState) (pbody : CreateProjectSchema), pbody.status = "planned" →
          (ProjectResourceAdd.post s2 pbody).2.status = 400
          ∧ (ProjectResourceAdd.post s2 pbody).1 = s2)) :=
  ⟨⟨by decide, by decide⟩,
   C5_status_case_handling demoState toDoBody 0 (by decide) (by decide)⟩

/-- Claim C6 counterexample: with two projects sharing a `start_date`
(`tieState`), sorting by `start_date` descending is not the reverse of
sorting ascending — a stable order keeps tied rows in table order in both
directions, so the claim fails on ties. -/
theorem C6_counterexample :
    ProjectRepository.find_all_sorted_by_date tieState "start_date" true
      ≠ Except.map List.reverse
          (ProjectRepository.find_all_sorted_by_date tieState "start_date" false) := by
  decide

/-- Claim C6 (amended): for stores whose projects (and likewise tasks) have
pairwise-distinct `start_date` values, `find_all_sorted_by_date` with
`descending = True` returns exactly the reverse of the ascending result. -/
theorem C6_amended_desc_reverse (s : DBState)
    (hp : s.projects.Pairwise (fun a b => a.start_date ≠ b.start_date))
    (ht : s.tasks.Pairwise (fun a b => a.start_date ≠ b.start_date)) :
    ProjectRepository.find_all_sorted_by_date s "start_date" true
      = Except.map List.reverse (ProjectRepository.find_all_sorted_by_date s "start_date" false)
    ∧ TaskRepository.find_all_sorted_by_date s "start_date" true
      = Except.map List.reverse (TaskRepository.find_all_sorted_by_date s "start_date" false) := by
  constructor
  · have key := insertionSort_flip_reverse (fun p : ProjectEntity => some p.start_date)
      s.projects (hp.imp (fun h hc => h (Option.some.inj hc)))
    simp [ProjectRepository.find_all_sorted_by_date, sortByOrder, Except.map, key]
  · have key := insertionSort_flip_reverse (fun t : TaskEntity => t.start_date)
      s.tasks ht
    simp [TaskRepository.find_all_sorted_by_date, sortByOrder, Except.map, key]

/-- Witness for claim C6's amended statement at `distinctDatesState`. -/
theorem C6_witness :
    (distinctDatesState.projects.Pairwise (fun a b => a.start_date ≠ b.start_date)
     ∧ distinctDatesState.tasks.Pairwise (fun a b => a.start_date ≠ b.start_date))
    ∧ (ProjectRepository.find_all_sorted_by_date distinctDatesState "start_date" true
        = Except.map List.reverse
            (ProjectRepository.find_all_sorted_by_date distinctDatesState "start_date" false)
      ∧ TaskRepository.find_all_sorted_by_date distinctDatesState "start_date" true
        = Except.map List.reverse
            (TaskRepository.find_all_sorted_by_date distinctDatesState "start_date" false)) :=
  ⟨⟨by decide, by decide⟩,
   C6_amended_desc_reverse distinctDatesState (by decide) (by decide)⟩

/-- Claim C8 counterexample: deleting an absent task, user, or comment does
not respond 404 — all three DELETE handlers answer 500 (`... not deleted`),
refuting "entity not found is always mapped to 404, never to 500". -/
theorem C8_counterexample :
    (TaskResourceID.delete emptyDB 1 0).2.status = 500
    ∧ (TaskResourceID.delete emptyDB 1 0).2.status ≠ 404
    ∧ (UserResourceID.delete emptyDB 1).2.status = 500
    ∧ (CommentResourceID.delete emptyDB 1).2.status = 500 := by decide

/-- Claim C8 (amended): for a request naming an entity that does not exist,
GET and PUT handlers respond 404, but the DELETE handlers respond 500 with
an `... not deleted` body. -/
theorem C8_amended_not_found_mapping (s : DBState) (i : Nat) (now : Nat)
    (body : UpdateTaskStatusSchema) (cbody : CreateCommentSchema)
    (htask : TaskRepository.find_by_id s i = none)
    (huser : UserRepository.find_by_id s i = none)
    (hcomment : CommentRepository.find_by_id s i = none)
    (hproject : ProjectRepository.find_by_id s i = none) :
    (TaskResourceID.get s i).status = 404
    ∧ (TaskResourceID.put s i body now).2.status = 404
    ∧ (TaskResourceID.delete s i now).2 = { status := 500, message := "Task not deleted" }
    ∧ (UserResourceID.get s i).status = 404
    ∧ (UserResourceID.delete s i).2 = { status := 500, message := "User not deleted" }
    ∧ (CommentResourceID.get s i).status = 404
    ∧ (CommentResourceID.put s i cbody now).2.status = 404
    ∧ (CommentResourceID.delete s i).2 = { status := 500, message := "Comment not deleted" }
    ∧ (ProjectResourceID.get s i).status = 404
    ∧ (ProjectResourceID.delete s i).2 = { status := 500, message := "Project not deleted" } := by
  refine ⟨?_, ?_, ?_, ?_, ?_, ?_, ?_, ?_, ?_, ?_⟩ <;>
    simp [TaskResourceID.get, TaskResourceID.put, TaskResourceID.delete,
      UserResourceID.get, UserResourceID.delete, CommentResourceID.get,
      CommentResourceID.put, CommentResourceID.delete, ProjectResourceID.get,
      ProjectResourceID.delete, TaskServiceImpl.find_by_id, UserServiceImpl.find_by_id,
      CommentServiceImpl.find_by_id, ProjectServiceImpl.find_by_id,
      htask, huser, hcomment, hproject]

/-- Witness for claim C8's amended statement at the empty store. -/
theorem C8_witness :
    (TaskRepository.find_by_id emptyDB 1 = none
     ∧ UserRepository.find_by_id emptyDB 1 = none
     ∧ CommentRepository.find_by_id emptyDB 1 = none
     ∧ ProjectRepository.find_by_id emptyDB 1 = none)
    ∧ ((TaskResourceID.get emptyDB 1).status = 404
      ∧ (TaskResourceID.put emptyDB 1 { status := "to_do" } 0).2.status = 404
      ∧ (TaskResourceID.delete emptyDB 1 0).2
          = { status := 500, message := "Task not deleted" }
      ∧ (UserResourceID.get emptyDB 1).status = 404
      ∧ (UserResourceID.delete emptyDB 1).2
          = { status := 500, message := "User not deleted" }
      ∧ (CommentResourceID.get emptyDB 1).status = 404
      ∧ (CommentResourceID.put emptyDB 1 { content := "c", task_id := 1 } 0).2.status = 404
      ∧ (CommentResourceID.delete emptyDB 1).2
          = { status := 500, message := "Comment not deleted" }
      ∧ (ProjectResourceID.get emptyDB 1).status = 404
      ∧ (ProjectResourceID.delete emptyDB 1).2
          = { status := 500, message := "Project not deleted" }) :=
  ⟨⟨by decide, by decide, by decide, by decide⟩,
   C8_amended_not_found_mapping emptyDB 1 0 { status := "to_do" }
     { content := "c", task_id := 1 } (by decide) (by decide) (by decide) (by decide)⟩
